import Mathlib

/-!
Verification development for the VOICE_MESH renderer sources.

The development shallowly embeds the scene-state synchronization core of the
repository:

* `renderer/src/sceneSpec.js` — `DEFAULT_SCENE` and `mergeScene` (the
  bug-fixed revision, the one carrying the BUG-006/BUG-007 fix comments and
  exercised by the vitest suite `__tests__/sceneSpec.test.js`);
* `renderer/src/meshGenerator.js` — `DEFAULT_DIMENSIONS` and `createGeometry`;
* `renderer/src/wsClient.js` — `createWsClient`: the reconnect backoff state
  and the `sendCommand` method.

JavaScript documents are modelled as insertion-ordered association lists of
string-keyed fields.  Arrays are modelled as heap references (a `Nat`
address into an ambient `Heap`), because JS object spread copies an array
field by reference, and one property under study concerns exactly that
sharing.  All numbers appearing in the sources are decimal fractions, so
numeric values are modelled as rationals.
-/

namespace VoiceMesh

/-- A JS scalar value: `null`, a boolean, a number, or a string. -/
inductive Sc where
  | null : Sc
  | bool (b : Bool) : Sc
  | num (q : ℚ) : Sc
  | str (s : String) : Sc
deriving DecidableEq

/-- A JS value as stored in a scene/patch document: a scalar, an array
(represented by its heap address; the arrays of this codebase hold scalars),
or an object with insertion-ordered fields. -/
inductive Val where
  | sc (s : Sc) : Val
  | arr (a : Nat) : Val
  | obj (fields : List (String × Val)) : Val

/-- The ambient JS heap for array contents: address ↦ current elements. -/
def Heap : Type := Nat → List Sc

/-- A JS object at the top level of a document: ordered fields. -/
def Obj : Type := List (String × Val)

/-- First-match association-list lookup; `none` models JS `undefined` for an
absent property. -/
def lookupFirst {α : Type} : List (String × α) → String → Option α
  | [], _ => none
  | p :: t, k => if p.1 = k then some p.2 else lookupFirst t k

/-- Last-match association-list lookup (the value a JS object built by
spreading these entries would hold, later entries winning). -/
def lookupLast {α : Type} : List (String × α) → String → Option α
  | [], _ => none
  | p :: t, k =>
    match lookupLast t k with
    | some v => some v
    | none => if p.1 = k then some p.2 else none

/-- One property definition inside a JS object literal: overwrite the value
in place when the key is already present, append otherwise. -/
def objInsert {α : Type} (o : List (String × α)) (k : String) (v : α) :
    List (String × α) :=
  if o.any (fun p => p.1 = k) then
    o.map (fun p => if p.1 = k then (p.1, v) else p)
  else o ++ [(k, v)]

/-- Successive property definitions inside a JS object literal. -/
def objExtend {α : Type} (o : List (String × α)) (adds : List (String × α)) :
    List (String × α) :=
  adds.foldl (fun acc kv => objInsert acc kv.1 kv.2) o

/-- `orO a b` is `a` when `a` is `some`, else `b` (JS: the earlier-spread
value unless a later spread overrides it). -/
def orO {α : Type} (a b : Option α) : Option α :=
  match a with
  | some v => some v
  | none => b

/-- The entries contributed by `...v` inside a JS object literal: an object
contributes its fields, a string its character-index properties, an array
its element-index properties, and `null` / booleans / numbers contribute
nothing. -/
def spreadEntries (h : Heap) : Val → List (String × Val)
  | .obj fields => fields
  | .sc (.str s) =>
      s.toList.enum.map (fun p => (toString p.1, Val.sc (Sc.str (String.singleton p.2))))
  | .arr a => (h a).enum.map (fun p => (toString p.1, Val.sc p.2))
  | .sc _ => []

/-- The entries contributed by spreading a possibly-undefined value
(`...base.object`: an absent property spreads to nothing). -/
def spreadOpt (h : Heap) : Option Val → List (String × Val)
  | none => []
  | some v => spreadEntries h v

/-- `doc.k ?? {}` — the nullish-coalesced section of a patch, as in
`(patch.object ?? {})`. -/
def nullishSection (o : Obj) (k : String) : Val :=
  match lookupFirst o k with
  | some (.sc .null) => .obj []
  | some v => v
  | none => .obj []

/-- `doc.shape_hint?.dimensions ?? {}` — the optionally-chained dimensions
of a document, as read twice inside `mergeScene`. -/
def dimsOf (doc : Obj) : Val :=
  match lookupFirst doc "shape_hint" with
  | some (.obj sh) =>
      match lookupFirst sh "dimensions" with
      | some (.sc .null) => .obj []
      | some v => v
      | none => .obj []
  | _ => .obj []

/-- One plain section of the `mergeScene` result:
`{ ...base.k, ...(patch.k ?? {}) }`. -/
def sectionLit (h : Heap) (base patch : Obj) (k : String) : Val :=
  Val.obj (objExtend (objExtend [] (spreadOpt h (lookupFirst base k)))
    (spreadEntries h (nullishSection patch k)))

/-- The `shape_hint` section of the `mergeScene` result, with the BUG-006
fix: dimensions are deep-merged independently from the rest of the section:
`{ ...base.shape_hint, ...(patch.shape_hint ?? {}),
   dimensions: { ...(base.shape_hint?.dimensions ?? {}),
                 ...(patch.shape_hint?.dimensions ?? {}) } }`. -/
def shapeHintLit (h : Heap) (base patch : Obj) : Val :=
  Val.obj (objExtend
    (objExtend (objExtend [] (spreadOpt h (lookupFirst base "shape_hint")))
      (spreadEntries h (nullishSection patch "shape_hint")))
    [("dimensions",
      Val.obj (objExtend (objExtend [] (spreadEntries h (dimsOf base)))
        (spreadEntries h (dimsOf patch))))])

/-- `mergeScene(base, patch)` from `renderer/src/sceneSpec.js` (the fixed
revision): the object literal
`{ ...base, ...patch, object: …, presentation: …, shape_hint: …,
   material: …, camera: …, lighting: …, fx: … }`.
The `Heap` argument is the ambient JS heap, consulted only if an array is
ever spread. -/
def mergeScene (h : Heap) (base patch : Obj) : Obj :=
  objExtend (objExtend (objExtend [] base) patch)
    [("object", sectionLit h base patch "object"),
     ("presentation", sectionLit h base patch "presentation"),
     ("shape_hint", shapeHintLit h base patch),
     ("material", sectionLit h base patch "material"),
     ("camera", sectionLit h base patch "camera"),
     ("lighting", sectionLit h base patch "lighting"),
     ("fx", sectionLit h base patch "fx")]

/-- The seven section keys the `mergeScene` object literal rebuilds
explicitly. -/
def mergedSectionKeys : List String :=
  ["object", "presentation", "shape_hint", "material", "camera", "lighting", "fx"]

/-- All top-level keys of the scene data model. -/
def allSectionKeys : List String :=
  mergedSectionKeys ++ ["generating", "mesh_url"]

/-- `DEFAULT_SCENE` from `renderer/src/sceneSpec.js` (the fixed revision,
including the BUG-007 `dimensions` defaults and the `generating` /
`mesh_url` sections).  The module-level literal `features: []` array is
modelled at heap address `0`. -/
def DEFAULT_SCENE : Obj :=
  [("object", .obj [("name", .sc (.str "demo object")),
                    ("category", .sc (.str "generic"))]),
   ("presentation", .obj [("mode", .sc (.str "hero_on_pedestal")),
                          ("style", .sc (.str "glossy_studio"))]),
   ("shape_hint", .obj [("primitive", .sc (.str "rounded_box")),
                        ("features", .arr 0),
                        ("dimensions", .obj [("width", .sc (.num (1/2))),
                                             ("height", .sc (.num 1)),
                                             ("depth", .sc (.num (1/5))),
                                             ("radius", .sc (.num (1/20))),
                                             ("segments", .sc (.num 8))])]),
   ("material", .obj [("preset", .sc (.str "plastic_gloss")),
                      ("color", .sc (.str "#4b7bff")),
                      ("roughness", .sc (.num (7/20)))]),
   ("camera", .obj [("orbit", .sc (.bool true)),
                    ("distance", .sc (.num (11/5))),
                    ("fov", .sc (.num 35))]),
   ("lighting", .obj [("preset", .sc (.str "studio_softbox"))]),
   ("fx", .obj [("outline", .sc (.num (3/25))),
                ("bloom", .sc (.num (3/20))),
                ("alpha", .sc (.num 1)),
                ("rim", .sc (.num 0)),
                ("env_reflect", .sc (.num 0))]),
   ("generating", .sc (.bool false)),
   ("mesh_url", .sc .null)]

/-- A heap whose arrays are all empty (address 0 holds the default
`features: []` literal). -/
def emptyHeap : Heap := fun _ => []

/-- Convenience projection for statements: the fields of an object-valued
property, `[]` when the property is absent or not an object. -/
def sectObj (o : Obj) (k : String) : List (String × Val) :=
  match lookupFirst o k with
  | some (.obj f) => f
  | _ => []

/-! ### Claim-specific concrete documents and heaps -/

/-- The patch `{shape_hint: {dimensions: {width: 1.5}}}`. -/
def widthPatch : Obj :=
  [("shape_hint", .obj [("dimensions", .obj [("width", .sc (.num (3/2)))])])]

/-- A patch with an unrecognized top-level key: `{banana: 1}`. -/
def bananaPatch : Obj := [("banana", .sc (.num 1))]

/-- The malformed patch `{camera: "five", material: {color: "#ff0000"}}`. -/
def malformedPatch : Obj :=
  [("camera", .sc (.str "five")),
   ("material", .obj [("color", .sc (.str "#ff0000"))])]

/-- The patch `{shape_hint: {features: ["flat"]}}`, its features array
living at heap address `1`. -/
def featuresPatch : Obj := [("shape_hint", .obj [("features", .arr 1)])]

/-- The heap at the moment `featuresPatch` is applied: the patch array
`["flat"]` at address `1`, the `DEFAULT_SCENE` literal `[]` at address
`0`. -/
def heapFlat : Heap := fun a => if a = 1 then [Sc.str "flat"] else []

/-- In-place JS `Array.prototype.push`: extend the array stored at one
address, leaving every other address untouched. -/
def pushAddr (h : Heap) (a : Nat) (x : Sc) : Heap :=
  fun b => if b = a then h b ++ [x] else h b

/-- The current value of `doc.shape_hint.features` under a heap. -/
def featuresOf (h : Heap) (o : Obj) : List Sc :=
  match lookupFirst o "shape_hint" with
  | some (.obj sh) =>
    match lookupFirst sh "features" with
    | some (.arr a) => h a
    | _ => []
  | _ => []

/-! ### meshGenerator.js -/

/-- A geometry handle produced by `meshGenerator.js`: one constructor per
Three.js geometry class used, carrying the constructor arguments.  A field
is `Option ℚ` where the source passes a dimension that may be `undefined`;
the `|| fallback` arguments are already-defaulted rationals. -/
inductive Geometry where
  | roundedBox (width height depth : Option ℚ) (segments radius : ℚ)
  | cylinder (radiusTop radiusBottom height : Option ℚ) (radialSegments : ℚ)
  | sphere (radius : Option ℚ) (widthSegments heightSegments : ℚ)
  | capsule (radius height : Option ℚ) (capSegments radialSegments : ℚ)
  | torus (radius tube : Option ℚ) (radialSegments tubularSegments : ℚ)
deriving DecidableEq

/-- JS `x || d` for a possibly-undefined number: `d` when the value is
absent or `0` (the only falsy rational). -/
def orFalsy (o : Option ℚ) (d : ℚ) : ℚ :=
  match o with
  | some v => if v = 0 then d else v
  | none => d

/-- `DEFAULT_DIMENSIONS.rounded_box`. -/
def roundedBoxDefaults : List (String × ℚ) :=
  [("width", 1/2), ("height", 1), ("depth", 1/5), ("radius", 1/20), ("segments", 8)]

/-- `DEFAULT_DIMENSIONS` from `meshGenerator.js`, as a partial map from
primitive name to its default dimensions. -/
def DEFAULT_DIMENSIONS : String → Option (List (String × ℚ))
  | "rounded_box" => some roundedBoxDefaults
  | "cylinder" => some [("radius", 3/10), ("height", 6/5), ("segments", 32)]
  | "sphere" => some [("radius", 1/2), ("segments", 32)]
  | "capsule" => some [("radius", 1/4), ("height", 1), ("segments", 16)]
  | "torus" => some [("radius", 1/2), ("thickness", 3/20), ("segments", 32)]
  | _ => none

/-- `createRoundedBox(dims)`:
`new RoundedBoxGeometry(dims.width, dims.height, dims.depth,
 dims.segments || 8, dims.radius || 0.05)`. -/
def createRoundedBox (dims : List (String × ℚ)) : Geometry :=
  .roundedBox (lookupFirst dims "width") (lookupFirst dims "height")
    (lookupFirst dims "depth") (orFalsy (lookupFirst dims "segments") 8)
    (orFalsy (lookupFirst dims "radius") (1/20))

/-- `createCylinder(dims)`:
`new CylinderGeometry(dims.radius, dims.radius, dims.height,
 dims.segments || 32)`. -/
def createCylinder (dims : List (String × ℚ)) : Geometry :=
  .cylinder (lookupFirst dims "radius") (lookupFirst dims "radius")
    (lookupFirst dims "height") (orFalsy (lookupFirst dims "segments") 32)

/-- `createSphere(dims)`:
`new SphereGeometry(dims.radius, dims.segments || 32, dims.segments || 32)`. -/
def createSphere (dims : List (String × ℚ)) : Geometry :=
  .sphere (lookupFirst dims "radius") (orFalsy (lookupFirst dims "segments") 32)
    (orFalsy (lookupFirst dims "segments") 32)

/-- `createCapsule(dims)`:
`new CapsuleGeometry(dims.radius, dims.height, dims.segments || 16,
 dims.segments || 16)`. -/
def createCapsule (dims : List (String × ℚ)) : Geometry :=
  .capsule (lookupFirst dims "radius") (lookupFirst dims "height")
    (orFalsy (lookupFirst dims "segments") 16)
    (orFalsy (lookupFirst dims "segments") 16)

/-- `createTorus(dims)`:
`new TorusGeometry(dims.radius, dims.thickness, dims.segments || 32,
 dims.segments || 32)`. -/
def createTorus (dims : List (String × ℚ)) : Geometry :=
  .torus (lookupFirst dims "radius") (lookupFirst dims "thickness")
    (orFalsy (lookupFirst dims "segments") 32)
    (orFalsy (lookupFirst dims "segments") 32)

/-- The result of `createGeometry`: the geometry returned, plus whether the
`console.warn` of the `default` switch branch fired. -/
structure GeometryResult where
  geometry : Geometry
  warned : Bool
deriving DecidableEq

/-- `createGeometry(primitive, dimensions)` from `meshGenerator.js`:
`const defaults = DEFAULT_DIMENSIONS[primitive] || DEFAULT_DIMENSIONS.rounded_box;
 const dims = { ...defaults, ...dimensions };`
followed by the `switch (primitive)` whose `default` branch warns and
falls back to `createRoundedBox(dims)`. -/
def createGeometry (primitive : String) (dimensions : List (String × ℚ)) :
    GeometryResult :=
  let defaults := (DEFAULT_DIMENSIONS primitive).getD roundedBoxDefaults
  let dims := objExtend (objExtend [] defaults) dimensions
  match primitive with
  | "rounded_box" => ⟨createRoundedBox dims, false⟩
  | "cylinder" => ⟨createCylinder dims, false⟩
  | "sphere" => ⟨createSphere dims, false⟩
  | "capsule" => ⟨createCapsule dims, false⟩
  | "torus" => ⟨createTorus dims, false⟩
  | _ => ⟨createRoundedBox dims, true⟩

/-! ### wsClient.js -/

/-- `let retryMs = 500` (`wsClient.js`). -/
def RETRY_INITIAL : ℚ := 500

/-- The backoff cap: the `5000` of `Math.min(5000, retryMs * 1.5)`. -/
def RETRY_CAP : ℚ := 5000

/-- The update `retryMs = Math.min(5000, retryMs * 1.5)` performed by
`ws.onclose` after scheduling the reconnect. -/
def nextRetryMs (r : ℚ) : ℚ := min RETRY_CAP (r * (3/2))

/-- `ws.onopen` executes `retryMs = 500`: the backoff after any successful
connection, whatever it was before. -/
def openRetryMs : ℚ := RETRY_INITIAL

/-- `retryAfter n` is the value of `retryMs` after `n` consecutive
unexpected closes since the last successful open.  `ws.onclose` runs
`setTimeout(connect, retryMs)` before updating `retryMs`, so the delay
scheduled before reconnect attempt `n + 1` is `retryAfter n`. -/
def retryAfter : ℕ → ℚ
  | 0 => RETRY_INITIAL
  | n + 1 => nextRetryMs (retryAfter n)

/-- The events the `wsClient.js` handlers react to. -/
inductive WsEvent where
  | opened
  | messaged
  | closed
  | errored

/-- The sync-agent state: current backoff, and the number of
`setTimeout(connect, …)` reconnect timers scheduled so far and never
cancelled.  The source contains no `clearTimeout` and no flag consulted by
`ws.onclose`, and the object returned by `createWsClient` exposes only
`sendCommand`, so no operation can cancel a scheduled reconnect. -/
structure AgentState where
  retryMs : ℚ
  pendingReconnects : ℕ

/-- One handler dispatch of `wsClient.js`: `onopen` resets the backoff,
`onclose` schedules a reconnect (incrementing the never-decremented timer
count) and grows the backoff, `onmessage`/`onerror` leave this state
alone. -/
def stepWs (s : AgentState) : WsEvent → AgentState
  | .opened => { s with retryMs := RETRY_INITIAL }
  | .closed =>
    { retryMs := nextRetryMs s.retryMs,
      pendingReconnects := s.pendingReconnects + 1 }
  | .messaged => s
  | .errored => s

/-- WebSocket `readyState` values; `ws = null` before `connect` assigns it
is modelled by `Option`. -/
inductive ReadyState where
  | connecting
  | openReady
  | closing
  | closedReady
deriving DecidableEq

/-- One `{type: "command", text, source: "renderer"}` wire frame. -/
structure CommandFrame where
  msgType : String
  text : String
  source : String
deriving DecidableEq

/-- The full effect of one `sendCommand(text)` call: frames written to the
socket, texts queued for later delivery, and errors reported.  The source
sends exactly when `ws && ws.readyState === WebSocket.OPEN`; there is no
else-branch, no queue and no error path, so the last two fields are what
the code makes them. -/
structure SendResult where
  framesSent : List CommandFrame
  queuedTexts : List String
  errorReported : Option String
deriving DecidableEq

/-- `sendCommand(text)` from the object returned by `createWsClient`. -/
def sendCommand (ws : Option ReadyState) (text : String) : SendResult :=
  match ws with
  | some .openReady => ⟨[⟨"command", text, "renderer"⟩], [], none⟩
  | _ => ⟨[], [], none⟩

/-! ### Lemmas about ordered association-list objects -/

theorem orO_none_right {α : Type} (a : Option α) : orO a none = a := by
  cases a <;> rfl

theorem isSome_orO {α : Type} (a b : Option α) :
    (orO a b).isSome = (a.isSome || b.isSome) := by
  cases a <;> rfl

theorem lookupFirst_append {α : Type} (l1 l2 : List (String × α)) (k : String) :
    lookupFirst (l1 ++ l2) k = orO (lookupFirst l1 k) (lookupFirst l2 k) := by
  induction l1 with
  | nil => rfl
  | cons p t ih =>
    by_cases hp : p.1 = k <;> simp [lookupFirst, hp, ih, orO]

theorem lookupFirst_map_update {α : Type} (t : List (String × α))
    (k k2 : String) (v : α) :
    lookupFirst (t.map (fun q => if q.1 = k then (q.1, v) else q)) k2 =
      if k2 = k then (lookupFirst t k).map (fun _ => v) else lookupFirst t k2 := by
  induction t with
  | nil => simp [lookupFirst]
  | cons p t ih =>
    by_cases h2 : k2 = k
    · subst h2
      by_cases hpk : p.1 = k2 <;> simp [lookupFirst, hpk, ih]
    · have hkk : ¬ k = k2 := fun hx => h2 hx.symm
      by_cases hpk : p.1 = k
      · have hp2 : ¬ p.1 = k2 := fun hx => h2 (hpk.symm.trans hx).symm
        simp [lookupFirst, hpk, hp2, h2, hkk, ih]
      · by_cases hp2 : p.1 = k2 <;> simp [lookupFirst, hpk, hp2, h2, ih]

theorem any_keys_iff {α : Type} (o : List (String × α)) (k : String) :
    (o.any (fun q => q.1 = k)) = true ↔ k ∈ o.map Prod.fst := by
  simp only [List.any_eq_true, List.mem_map, decide_eq_true_eq]

theorem lookupFirst_eq_none_of_not_mem {α : Type} (l : List (String × α))
    (k : String) (h : k ∉ l.map Prod.fst) : lookupFirst l k = none := by
  induction l with
  | nil => rfl
  | cons p t ih =>
    rw [List.map_cons, List.mem_cons, not_or] at h
    rw [lookupFirst, if_neg (fun hp => h.1 hp.symm), ih h.2]

theorem lookupFirst_isSome_iff {α : Type} (l : List (String × α)) (k : String) :
    (lookupFirst l k).isSome = true ↔ k ∈ l.map Prod.fst := by
  induction l with
  | nil => simp [lookupFirst]
  | cons p t ih =>
    by_cases hp : p.1 = k
    · simp [lookupFirst, hp]
    · have hp2 : ¬ k = p.1 := fun hx => hp hx.symm
      simp [lookupFirst, hp, hp2, ih]

theorem lookupLast_isSome_iff {α : Type} (l : List (String × α)) (k : String) :
    (lookupLast l k).isSome = true ↔ k ∈ l.map Prod.fst := by
  induction l with
  | nil => simp [lookupLast]
  | cons p t ih =>
    rcases hlt : lookupLast t k with _ | v
    · have hnm : k ∉ t.map Prod.fst := by
        rw [← ih, hlt]; simp
      by_cases hp : p.1 = k
      · simp [lookupLast, hlt, hp, hnm]
      · have hp2 : ¬ k = p.1 := fun hx => hp hx.symm
        simp [lookupLast, hlt, hp, hp2, hnm]
    · have hm : k ∈ t.map Prod.fst := by
        rw [← ih, hlt]; rfl
      simp [lookupLast, hlt, hm]

theorem lookupFirst_objInsert_self {α : Type} (o : List (String × α))
    (k : String) (v : α) : lookupFirst (objInsert o k v) k = some v := by
  rw [objInsert]
  by_cases ho : o.any (fun q => q.1 = k) = true
  · rw [if_pos ho, lookupFirst_map_update, if_pos rfl]
    rcases hl : lookupFirst o k with _ | w
    · exact absurd ((lookupFirst_isSome_iff o k).2 ((any_keys_iff o k).1 ho))
        (by rw [hl]; simp)
    · rfl
  · rw [if_neg ho, lookupFirst_append,
      lookupFirst_eq_none_of_not_mem o k (fun hm => ho ((any_keys_iff o k).2 hm))]
    simp [lookupFirst, orO]

theorem lookupFirst_objInsert_ne {α : Type} (o : List (String × α))
    (k k2 : String) (v : α) (h : k2 ≠ k) :
    lookupFirst (objInsert o k v) k2 = lookupFirst o k2 := by
  rw [objInsert]
  by_cases ho : o.any (fun q => q.1 = k) = true
  · rw [if_pos ho, lookupFirst_map_update, if_neg h]
  · rw [if_neg ho, lookupFirst_append]
    have hkk : ¬ k = k2 := fun hx => h hx.symm
    simp [lookupFirst, hkk, orO_none_right]

theorem lookupFirst_objExtend {α : Type} (o l : List (String × α)) (k : String) :
    lookupFirst (objExtend o l) k = orO (lookupLast l k) (lookupFirst o k) := by
  induction l generalizing o with
  | nil => simp [objExtend, lookupLast, orO]
  | cons p t ih =>
    rw [objExtend, List.foldl_cons, ← objExtend, ih]
    by_cases hp : p.1 = k
    · subst hp
      rcases hlt : lookupLast t p.1 with _ | v
      · simp [lookupLast, hlt, orO, lookupFirst_objInsert_self]
      · simp [lookupLast, hlt, orO]
    · rcases hlt : lookupLast t k with _ | v
      · simp [lookupLast, hlt, hp, orO,
          lookupFirst_objInsert_ne o p.1 k p.2 (fun h2 => hp h2.symm)]
      · simp [lookupLast, hlt, orO]

theorem lookupLast_eq_none_of_not_mem {α : Type} (l : List (String × α))
    (k : String) (h : k ∉ l.map Prod.fst) : lookupLast l k = none := by
  rcases hl : lookupLast l k with _ | v
  · rfl
  · exact absurd ((lookupLast_isSome_iff l k).1 (by rw [hl]; rfl)) h

theorem mem_keys_objExtend_iff {α : Type} (o l : List (String × α)) (k : String) :
    k ∈ (objExtend o l).map Prod.fst ↔ k ∈ o.map Prod.fst ∨ k ∈ l.map Prod.fst := by
  rw [← lookupFirst_isSome_iff, lookupFirst_objExtend, isSome_orO,
    ← lookupFirst_isSome_iff, ← lookupLast_isSome_iff]
  simp [or_comm]

theorem objExtend_eq_append {α : Type} (o l : List (String × α))
    (hdis : ∀ k ∈ l.map Prod.fst, k ∉ o.map Prod.fst)
    (hnd : (l.map Prod.fst).Nodup) : objExtend o l = o ++ l := by
  induction l generalizing o with
  | nil => simp [objExtend]
  | cons p t ih =>
    rw [List.map_cons, List.nodup_cons] at hnd
    rw [objExtend, List.foldl_cons, ← objExtend]
    have hp : p.1 ∉ o.map Prod.fst := hdis p.1 (by simp)
    have hany : ¬ (o.any (fun q => q.1 = p.1) = true) :=
      fun hx => hp ((any_keys_iff o p.1).1 hx)
    rw [objInsert, if_neg hany]
    have hstep := ih (o ++ [(p.1, p.2)])
      (by
        intro k hk hko
        rw [List.map_append] at hko
        rcases List.mem_append.1 hko with h1 | h1
        · exact hdis k (by simp [hk]) h1
        · simp only [List.map_cons, List.map_nil, List.mem_singleton] at h1
          exact hnd.1 (h1 ▸ hk))
      hnd.2
    rw [hstep, List.append_assoc]
    rfl

theorem objExtend_nil_eq {α : Type} (l : List (String × α))
    (hnd : (l.map Prod.fst).Nodup) : objExtend [] l = l := by
  have := objExtend_eq_append [] l (by simp) hnd
  simpa using this

theorem map_update_of_not_mem {α : Type} (t : List (String × α)) (k : String)
    (v : α) (h : k ∉ t.map Prod.fst) :
    t.map (fun q => if q.1 = k then (q.1, v) else q) = t := by
  induction t with
  | nil => rfl
  | cons p t ih =>
    rw [List.map_cons, List.mem_cons, not_or] at h
    rw [List.map_cons, if_neg (fun hp => h.1 hp.symm), ih h.2]


theorem orO_none_left {α : Type} (b : Option α) : orO none b = b := rfl

theorem objExtend_nil_right {α : Type} (o : List (String × α)) :
    objExtend o [] = o := rfl

theorem objExtend_singleton {α : Type} (o : List (String × α)) (k : String)
    (v : α) : objExtend o [(k, v)] = objInsert o k v := rfl

theorem objInsert_self_of_lookupFirst {α : Type} (o : List (String × α))
    (k : String) (v : α) (hnd : (o.map Prod.fst).Nodup)
    (hv : lookupFirst o k = some v) : objInsert o k v = o := by
  induction o with
  | nil => simp [lookupFirst] at hv
  | cons p t ih =>
    rw [List.map_cons, List.nodup_cons] at hnd
    by_cases hp : p.1 = k
    · rw [lookupFirst, if_pos hp] at hv
      have hveq : v = p.2 := (Option.some.inj hv).symm
      subst hveq
      have hany : ((p :: t).any (fun q => q.1 = k)) = true := by simp [hp]
      rw [objInsert, if_pos hany, List.map_cons, if_pos hp,
        map_update_of_not_mem t k p.2 (hp ▸ hnd.1)]
    · rw [lookupFirst, if_neg hp] at hv
      have hkt : k ∈ t.map Prod.fst :=
        (lookupFirst_isSome_iff t k).1 (by rw [hv]; rfl)
      have hany : ((p :: t).any (fun q => q.1 = k)) = true := by
        rw [any_keys_iff]
        simp [hkt]
      have ihx := ih hnd.2 hv
      rw [objInsert, if_pos ((any_keys_iff t k).2 hkt)] at ihx
      rw [objInsert, if_pos hany, List.map_cons, if_neg hp, ihx]

/-! ### Lemmas computing the pieces of `mergeScene` -/

theorem nullishSection_obj (o : Obj) (k : String) (f : List (String × Val))
    (hf : lookupFirst o k = some (Val.obj f)) :
    nullishSection o k = Val.obj f := by
  simp only [nullishSection]
  rw [hf]

theorem dimsOf_eq_obj (doc : Obj) (sh d : List (String × Val))
    (hsh : lookupFirst doc "shape_hint" = some (Val.obj sh))
    (hd : lookupFirst sh "dimensions" = some (Val.obj d)) :
    dimsOf doc = Val.obj d := by
  have h1 : dimsOf doc
      = (match lookupFirst sh "dimensions" with
         | some (Val.sc Sc.null) => Val.obj []
         | some v => v
         | none => Val.obj []) := by
    simp only [dimsOf]
    rw [hsh]
  rw [h1, hd]

theorem spread_nullishSection_scalar (h : Heap) (o : Obj) (k : String) (s : Sc)
    (hp : lookupFirst o k = some (Val.sc s)) (hns : ∀ t, s ≠ Sc.str t) :
    spreadEntries h (nullishSection o k) = [] := by
  cases s with
  | str t => exact absurd rfl (hns t)
  | null =>
    simp only [nullishSection]
    rw [hp]
    rfl
  | bool b =>
    simp only [nullishSection]
    rw [hp]
    rfl
  | num q =>
    simp only [nullishSection]
    rw [hp]
    rfl

theorem lookupFirst_mergeScene_camera (h : Heap) (base patch : Obj) :
    lookupFirst (mergeScene h base patch) "camera"
      = some (sectionLit h base patch "camera") := by
  rw [mergeScene, lookupFirst_objExtend]
  rfl

theorem lookupFirst_mergeScene_material (h : Heap) (base patch : Obj) :
    lookupFirst (mergeScene h base patch) "material"
      = some (sectionLit h base patch "material") := by
  rw [mergeScene, lookupFirst_objExtend]
  rfl

theorem lookupFirst_mergeScene_shape_hint (h : Heap) (base patch : Obj) :
    lookupFirst (mergeScene h base patch) "shape_hint"
      = some (shapeHintLit h base patch) := by
  rw [mergeScene, lookupFirst_objExtend]
  rfl

theorem sectionLit_empty_patch (h : Heap) (base : Obj) (k : String)
    (f : List (String × Val)) (hb : lookupFirst base k = some (Val.obj f))
    (hfnd : (f.map Prod.fst).Nodup) : sectionLit h base [] k = Val.obj f := by
  simp only [sectionLit, nullishSection, lookupFirst]
  rw [hb]
  simp only [spreadOpt, spreadEntries, objExtend_nil_right]
  rw [objExtend_nil_eq f hfnd]

theorem shapeHintLit_empty_patch (h : Heap) (base : Obj)
    (sh d : List (String × Val))
    (hsh : lookupFirst base "shape_hint" = some (Val.obj sh))
    (hshnd : (sh.map Prod.fst).Nodup)
    (hd : lookupFirst sh "dimensions" = some (Val.obj d))
    (hdnd : (d.map Prod.fst).Nodup) : shapeHintLit h base [] = Val.obj sh := by
  simp only [shapeHintLit, nullishSection, lookupFirst]
  rw [hsh, dimsOf_eq_obj base sh d hsh hd]
  have hdp : dimsOf ([] : Obj) = Val.obj [] := rfl
  rw [hdp]
  simp only [spreadOpt, spreadEntries, objExtend_nil_right]
  rw [objExtend_nil_eq d hdnd, objExtend_nil_eq sh hshnd, objExtend_singleton,
    objInsert_self_of_lookupFirst sh "dimensions" (Val.obj d) hshnd hd]

/-! ### Backoff arithmetic -/

theorem retryAfter_le_cap (n : ℕ) : retryAfter n ≤ RETRY_CAP := by
  cases n with
  | zero =>
    norm_num [retryAfter, RETRY_INITIAL, RETRY_CAP]
  | succ n =>
    simp only [retryAfter, nextRetryMs]
    exact min_le_left _ _

theorem retryAfter_ge_initial (n : ℕ) : RETRY_INITIAL ≤ retryAfter n := by
  induction n with
  | zero => exact le_refl _
  | succ n ih =>
    simp only [retryAfter, nextRetryMs]
    refine le_min ?_ ?_
    · norm_num [RETRY_INITIAL, RETRY_CAP]
    · have h5 : (500 : ℚ) ≤ retryAfter n := by
        simpa [RETRY_INITIAL] using ih
      nlinarith

/-! ### Claim theorems -/

/-- C7: the reconnect backoff delay sequence is monotone non-decreasing,
never exceeds the 5000 ms cap, equals the geometric progression
`min 5000 (500 · 1.5^n)` (growth from the 500 ms initial value), and any
successful connection resets the backoff to the initial value
(`ws.onopen` assigns `retryMs = 500`). -/
theorem C7_reconnect_backoff :
    (∀ n : ℕ, retryAfter n ≤ retryAfter (n + 1)) ∧
    (∀ n : ℕ, retryAfter n ≤ RETRY_CAP) ∧
    (∀ n : ℕ, retryAfter n = min RETRY_CAP (RETRY_INITIAL * (3 / 2) ^ n)) ∧
    openRetryMs = RETRY_INITIAL := by
  refine ⟨?_, retryAfter_le_cap, ?_, rfl⟩
  · intro n
    simp only [retryAfter, nextRetryMs]
    refine le_min (retryAfter_le_cap n) ?_
    have h5 : (500 : ℚ) ≤ retryAfter n := by
      simpa [RETRY_INITIAL] using retryAfter_ge_initial n
    nlinarith
  · intro n
    induction n with
    | zero =>
      rw [retryAfter, pow_zero, mul_one, min_eq_right]
      norm_num [RETRY_INITIAL, RETRY_CAP]
    | succ n ih =>
      rw [retryAfter, nextRetryMs, ih]
      rcases le_or_lt (RETRY_INITIAL * (3 / 2) ^ n) RETRY_CAP with hle | hlt
      · rw [min_eq_right hle, pow_succ]
        ring_nf
      · rw [min_eq_left hlt.le]
        have h1 : RETRY_CAP ≤ RETRY_CAP * (3 / 2) := by
          norm_num [RETRY_CAP]
        have hx : (5000 : ℚ) < RETRY_INITIAL * (3 / 2) ^ n := by
          simpa [RETRY_CAP] using hlt
        have h2 : RETRY_CAP ≤ RETRY_INITIAL * (3 / 2) ^ (n + 1) := by
          rw [pow_succ, ← mul_assoc]
          simp only [RETRY_CAP]
          nlinarith
        rw [min_eq_left h1, min_eq_left h2]

/-- C8: requesting geometry for the unrecognized primitive name
`"not_a_real_primitive"` does not fail: for every dimensions argument,
`createGeometry` returns a geometry equal (same constructor, same
dimension arguments) to the one produced for `"rounded_box"` with the same
dimensions, and emits the warning signal, which the `"rounded_box"` call
does not. -/
theorem C8_unknown_primitive_fallback (dimensions : List (String × ℚ)) :
    (createGeometry "not_a_real_primitive" dimensions).geometry
        = (createGeometry "rounded_box" dimensions).geometry ∧
      (createGeometry "not_a_real_primitive" dimensions).warned = true ∧
      (createGeometry "rounded_box" dimensions).warned = false :=
  ⟨rfl, rfl, rfl⟩

/-- C9 (code evidence): `ws.onclose` unconditionally schedules a reconnect
timer — after any close event, deliberate or not, the count of scheduled
reconnect timers is positive — and no event the client reacts to ever
decreases that count, because `wsClient.js` has no `clearTimeout`, no guard
flag, and the object `createWsClient` returns exposes no close operation.
This contradicts the claim that a deliberately closed agent never
reconnects. -/
theorem C9_close_always_schedules_reconnect :
    (∀ s : AgentState, 0 < (stepWs s WsEvent.closed).pendingReconnects) ∧
    (∀ (s : AgentState) (e : WsEvent),
      s.pendingReconnects ≤ (stepWs s e).pendingReconnects) := by
  constructor
  · intro s
    simp [stepWs]
  · intro s e
    cases e <;> simp [stepWs]

/-- C5 (code evidence): `mergeScene` copies the patch's `features` array by
reference.  Merging `DEFAULT_SCENE` with `{shape_hint: {features:
["flat"]}}` (whose array lives at heap address 1) produces a document whose
`shape_hint.features` is that same address; reading the merged document
before the mutation gives `["flat"]`, and after an in-place
`patch.shape_hint.features.push("glossy")` the very same already-produced
document reads `["flat", "glossy"]` — so mutating the patch after apply
changes the merged document's value, contradicting the no-aliasing claim. -/
theorem C5_features_array_aliased :
    lookupFirst (sectObj (mergeScene heapFlat DEFAULT_SCENE featuresPatch)
        "shape_hint") "features" = some (Val.arr 1) ∧
      lookupFirst (sectObj featuresPatch "shape_hint") "features"
        = some (Val.arr 1) ∧
      featuresOf heapFlat (mergeScene heapFlat DEFAULT_SCENE featuresPatch)
        = [Sc.str "flat"] ∧
      featuresOf (pushAddr heapFlat 1 (Sc.str "glossy"))
          (mergeScene heapFlat DEFAULT_SCENE featuresPatch)
        = [Sc.str "flat", Sc.str "glossy"] :=
  ⟨rfl, rfl, rfl, rfl⟩

/-- C10: calling `sendCommand` while the WebSocket is not in the OPEN state
is a silent no-op — no frame is sent, nothing is queued for later
delivery, and no error is reported; the command is dropped. -/
theorem C10_sendCommand_drops_when_not_open (ws : Option ReadyState)
    (text : String) (hws : ws ≠ some ReadyState.openReady) :
    sendCommand ws text = ⟨[], [], none⟩ := by
  cases ws with
  | none => rfl
  | some rs =>
    cases rs with
    | openReady => exact absurd rfl hws
    | connecting => rfl
    | closing => rfl
    | closedReady => rfl

/-- Witness for C10 at a concrete disconnected state. -/
theorem C10_sendCommand_drops_when_not_open_witness :
    (none : Option ReadyState) ≠ some ReadyState.openReady ∧
      sendCommand none "make it blue" = ⟨[], [], none⟩ :=
  ⟨by decide, C10_sendCommand_drops_when_not_open none "make it blue" (by decide)⟩

/-- C2 counterexample: the claim says the unrecognized top-level key
`banana` would be absent from the merged result, but `{...base, ...patch}`
copies it through — at `DEFAULT_SCENE` merged with `{banana: 1}` the
result contains `banana` with the patch's value. -/
theorem C2_counterexample_banana_kept :
    lookupFirst (mergeScene emptyHeap DEFAULT_SCENE bananaPatch) "banana"
      = some (Val.sc (Sc.num 1)) := rfl

/-- C2 (amended): a top-level patch key that is not one of the section keys
the merge literal rebuilds is not ignored but passed through: the merged
document maps it to the patch's value when the patch has the key and to the
base's value otherwise, and merging never raises an error (the merge is a
total function). -/
theorem C2_amended_unrecognized_keys_pass_through (h : Heap)
    (base patch : Obj) (k : String) (hk : k ∉ mergedSectionKeys) :
    lookupFirst (mergeScene h base patch) k
      = orO (lookupLast patch k) (lookupLast base k) := by
  rw [mergeScene, lookupFirst_objExtend]
  have hnone : lookupLast
      [("object", sectionLit h base patch "object"),
       ("presentation", sectionLit h base patch "presentation"),
       ("shape_hint", shapeHintLit h base patch),
       ("material", sectionLit h base patch "material"),
       ("camera", sectionLit h base patch "camera"),
       ("lighting", sectionLit h base patch "lighting"),
       ("fx", sectionLit h base patch "fx")] k = none := by
    apply lookupLast_eq_none_of_not_mem
    simpa [mergedSectionKeys] using hk
  rw [hnone, orO_none_left, lookupFirst_objExtend, lookupFirst_objExtend]
  simp only [lookupFirst, orO_none_right]

/-- Witness for the amended C2 at `DEFAULT_SCENE` and `{banana: 1}`. -/
theorem C2_amended_unrecognized_keys_pass_through_witness :
    "banana" ∉ mergedSectionKeys ∧
      lookupFirst (mergeScene emptyHeap DEFAULT_SCENE bananaPatch) "banana"
        = orO (lookupLast bananaPatch "banana")
            (lookupLast DEFAULT_SCENE "banana") :=
  ⟨by decide,
   C2_amended_unrecognized_keys_pass_through emptyHeap DEFAULT_SCENE
     bananaPatch "banana" (by decide)⟩

/-- C4 counterexample: merging `DEFAULT_SCENE` with
`{camera: "five", material: {color: "#ff0000"}}` raises no error and still
merges the well-formed `material` section, but the `camera` section is NOT
left unchanged: spreading the string `"five"` adds its character-index
properties, so the merged camera gains a key `"0"` (value `"f"`) that the
base camera does not have. -/
theorem C4_counterexample_string_section :
    lookupFirst (sectObj (mergeScene emptyHeap DEFAULT_SCENE malformedPatch)
        "camera") "0" = some (Val.sc (Sc.str "f")) ∧
      lookupFirst (sectObj DEFAULT_SCENE "camera") "0" = none ∧
      lookupFirst (sectObj (mergeScene emptyHeap DEFAULT_SCENE malformedPatch)
          "material") "color" = some (Val.sc (Sc.str "#ff0000")) ∧
      lookupFirst (sectObj (mergeScene emptyHeap DEFAULT_SCENE malformedPatch)
          "material") "preset" = some (Val.sc (Sc.str "plastic_gloss")) :=
  ⟨rfl, rfl, rfl, rfl⟩

/-- C4 (amended): a patch section holding a number, a boolean or `null`
where an object is expected does not raise an error, leaves the base's
section unchanged in the result, and every well-formed section of the patch
is still merged (base fields overridden by patch fields); only a string
section value additionally injects its character-index keys, as the
counterexample shows. -/
theorem C4_amended_non_string_scalar_skipped (h : Heap) (base patch : Obj)
    (cb mb mp : List (String × Val)) (s : Sc)
    (hcb : lookupFirst base "camera" = some (Val.obj cb))
    (hcnd : (cb.map Prod.fst).Nodup)
    (hmb : lookupFirst base "material" = some (Val.obj mb))
    (hmnd : (mb.map Prod.fst).Nodup)
    (hpc : lookupFirst patch "camera" = some (Val.sc s))
    (hns : ∀ t, s ≠ Sc.str t)
    (hpm : lookupFirst patch "material" = some (Val.obj mp)) :
    lookupFirst (mergeScene h base patch) "camera" = some (Val.obj cb) ∧
      lookupFirst (mergeScene h base patch) "material"
        = some (Val.obj (objExtend mb mp)) := by
  constructor
  · rw [lookupFirst_mergeScene_camera]
    have h1 : sectionLit h base patch "camera" = Val.obj cb := by
      simp only [sectionLit]
      rw [hcb, spread_nullishSection_scalar h patch "camera" s hpc hns,
        objExtend_nil_right]
      simp only [spreadOpt, spreadEntries]
      rw [objExtend_nil_eq cb hcnd]
    rw [h1]
  · rw [lookupFirst_mergeScene_material]
    have h2 : sectionLit h base patch "material"
        = Val.obj (objExtend mb mp) := by
      simp only [sectionLit]
      rw [hmb, nullishSection_obj patch "material" mp hpm]
      simp only [spreadOpt, spreadEntries]
      rw [objExtend_nil_eq mb hmnd]
    rw [h2]

/-- Witness for the amended C4: `DEFAULT_SCENE` patched with
`{camera: 5, material: {color: "#00ff00"}}`. -/
theorem C4_amended_non_string_scalar_skipped_witness :
    lookupFirst DEFAULT_SCENE "camera"
        = some (Val.obj [("orbit", Val.sc (Sc.bool true)),
            ("distance", Val.sc (Sc.num (11 / 5))),
            ("fov", Val.sc (Sc.num 35))]) ∧
      lookupFirst DEFAULT_SCENE "material"
        = some (Val.obj [("preset", Val.sc (Sc.str "plastic_gloss")),
            ("color", Val.sc (Sc.str "#4b7bff")),
            ("roughness", Val.sc (Sc.num (7 / 20)))]) ∧
      (∀ t, Sc.num 5 ≠ Sc.str t) ∧
      lookupFirst (mergeScene emptyHeap DEFAULT_SCENE
          [("camera", Val.sc (Sc.num 5)),
           ("material", Val.obj [("color", Val.sc (Sc.str "#00ff00"))])])
          "camera"
        = some (Val.obj [("orbit", Val.sc (Sc.bool true)),
            ("distance", Val.sc (Sc.num (11 / 5))),
            ("fov", Val.sc (Sc.num 35))]) ∧
      lookupFirst (mergeScene emptyHeap DEFAULT_SCENE
          [("camera", Val.sc (Sc.num 5)),
           ("material", Val.obj [("color", Val.sc (Sc.str "#00ff00"))])])
          "material"
        = some (Val.obj (objExtend
            [("preset", Val.sc (Sc.str "plastic_gloss")),
             ("color", Val.sc (Sc.str "#4b7bff")),
             ("roughness", Val.sc (Sc.num (7 / 20)))]
            [("color", Val.sc (Sc.str "#00ff00"))])) :=
  ⟨rfl, rfl, fun _ h => Sc.noConfusion h,
   (C4_amended_non_string_scalar_skipped emptyHeap DEFAULT_SCENE
     [("camera", Val.sc (Sc.num 5)),
      ("material", Val.obj [("color", Val.sc (Sc.str "#00ff00"))])]
     [("orbit", Val.sc (Sc.bool true)), ("distance", Val.sc (Sc.num (11 / 5))),
      ("fov", Val.sc (Sc.num 35))]
     [("preset", Val.sc (Sc.str "plastic_gloss")),
      ("color", Val.sc (Sc.str "#4b7bff")),
      ("roughness", Val.sc (Sc.num (7 / 20)))]
     [("color", Val.sc (Sc.str "#00ff00"))] (Sc.num 5) rfl (by decide) rfl
     (by decide) rfl (fun _ h => Sc.noConfusion h) rfl).1,
   (C4_amended_non_string_scalar_skipped emptyHeap DEFAULT_SCENE
     [("camera", Val.sc (Sc.num 5)),
      ("material", Val.obj [("color", Val.sc (Sc.str "#00ff00"))])]
     [("orbit", Val.sc (Sc.bool true)), ("distance", Val.sc (Sc.num (11 / 5))),
      ("fov", Val.sc (Sc.num 35))]
     [("preset", Val.sc (Sc.str "plastic_gloss")),
      ("color", Val.sc (Sc.str "#4b7bff")),
      ("roughness", Val.sc (Sc.num (7 / 20)))]
     [("color", Val.sc (Sc.str "#00ff00"))] (Sc.num 5) rfl (by decide) rfl
     (by decide) rfl (fun _ h => Sc.noConfusion h) rfl).2⟩

/-- C6: every top-level section of the data model always exists: the
initial default document defines every section (object, presentation,
shape_hint, material, camera, lighting, fx, generating, mesh_url), and for
every document containing all sections and every patch, the merged result
still contains every section — a section missing from a patch means "no
change", never "delete", because merging only adds or overwrites top-level
keys. -/
theorem C6_sections_always_present :
    (∀ k ∈ allSectionKeys, (lookupFirst DEFAULT_SCENE k).isSome = true) ∧
    (∀ (h : Heap) (base patch : Obj) (k : String),
      (∀ k2 ∈ allSectionKeys, (lookupFirst base k2).isSome = true) →
      k ∈ allSectionKeys →
      (lookupFirst (mergeScene h base patch) k).isSome = true) := by
  constructor
  · decide
  · intro h base patch k hbase hk
    have hkb : k ∈ base.map Prod.fst :=
      (lookupFirst_isSome_iff base k).1 (hbase k hk)
    rw [lookupFirst_isSome_iff, mergeScene, mem_keys_objExtend_iff,
      mem_keys_objExtend_iff, mem_keys_objExtend_iff]
    exact Or.inl (Or.inl (Or.inr hkb))

/-- Witness for C6: the merged result of `DEFAULT_SCENE` and the width
patch still contains `mesh_url`. -/
theorem C6_sections_always_present_witness :
    (∀ k2 ∈ allSectionKeys, (lookupFirst DEFAULT_SCENE k2).isSome = true) ∧
      "mesh_url" ∈ allSectionKeys ∧
      (lookupFirst (mergeScene emptyHeap DEFAULT_SCENE widthPatch)
        "mesh_url").isSome = true :=
  ⟨by decide, by decide,
   C6_sections_always_present.2 emptyHeap DEFAULT_SCENE widthPatch "mesh_url"
     (by decide) (by decide)⟩

/-- C1: for every base document whose `shape_hint.dimensions` is an object
containing the keys width, height, depth, radius and segments, merging the
patch `{shape_hint: {dimensions: {width: 1.5}}}` yields a document whose
dimensions hold the base value at every key other than `width`, hold
`1.5` at `width`, and retain every pre-existing dimension key — no sibling
is removed. -/
theorem C1_dimensions_deep_merge (h : Heap) (base : Obj)
    (sh d : List (String × Val))
    (hsh : lookupFirst base "shape_hint" = some (Val.obj sh))
    (hd : lookupFirst sh "dimensions" = some (Val.obj d))
    (hdnd : (d.map Prod.fst).Nodup)
    (_hkeys : ∀ k ∈ ["width", "height", "depth", "radius", "segments"],
      k ∈ d.map Prod.fst) :
    ∃ fields dfields,
      lookupFirst (mergeScene h base widthPatch) "shape_hint"
          = some (Val.obj fields) ∧
        lookupFirst fields "dimensions" = some (Val.obj dfields) ∧
        lookupFirst dfields "width" = some (Val.sc (Sc.num (3 / 2))) ∧
        (∀ k, k ≠ "width" → lookupFirst dfields k = lookupFirst d k) ∧
        (∀ k, k ∈ d.map Prod.fst → k ∈ dfields.map Prod.fst) := by
  have htop := lookupFirst_mergeScene_shape_hint h base widthPatch
  have hdimsb := dimsOf_eq_obj base sh d hsh hd
  have hdimsp : dimsOf widthPatch
      = Val.obj [("width", Val.sc (Sc.num (3 / 2)))] := rfl
  have hD : objExtend (objExtend [] (spreadEntries h (dimsOf base)))
        (spreadEntries h (dimsOf widthPatch))
      = objInsert d "width" (Val.sc (Sc.num (3 / 2))) := by
    rw [hdimsb, hdimsp]
    simp only [spreadEntries]
    rw [objExtend_nil_eq d hdnd, objExtend_singleton]
  refine ⟨objExtend
      (objExtend (objExtend [] (spreadOpt h (lookupFirst base "shape_hint")))
        (spreadEntries h (nullishSection widthPatch "shape_hint")))
      [("dimensions",
        Val.obj (objInsert d "width" (Val.sc (Sc.num (3 / 2)))))],
    objInsert d "width" (Val.sc (Sc.num (3 / 2))), ?_, ?_, ?_, ?_, ?_⟩
  · rw [htop]
    simp only [shapeHintLit]
    rw [hD]
  · rw [objExtend_singleton]
    exact lookupFirst_objInsert_self _ "dimensions" _
  · exact lookupFirst_objInsert_self d "width" _
  · intro k hkw
    exact lookupFirst_objInsert_ne d "width" k _ hkw
  · intro k hkmem
    by_cases hkw : k = "width"
    · subst hkw
      rw [← lookupFirst_isSome_iff, lookupFirst_objInsert_self]
      rfl
    · rw [← lookupFirst_isSome_iff,
        lookupFirst_objInsert_ne d "width" k _ hkw, lookupFirst_isSome_iff]
      exact hkmem

/-- Witness for C1 at `DEFAULT_SCENE` (whose dimensions carry all five
keys). -/
theorem C1_dimensions_deep_merge_witness :
    lookupFirst DEFAULT_SCENE "shape_hint"
        = some (Val.obj [("primitive", Val.sc (Sc.str "rounded_box")),
            ("features", Val.arr 0),
            ("dimensions", Val.obj [("width", Val.sc (Sc.num (1 / 2))),
              ("height", Val.sc (Sc.num 1)),
              ("depth", Val.sc (Sc.num (1 / 5))),
              ("radius", Val.sc (Sc.num (1 / 20))),
              ("segments", Val.sc (Sc.num 8))])]) ∧
      (∃ fields dfields,
        lookupFirst (mergeScene emptyHeap DEFAULT_SCENE widthPatch)
            "shape_hint" = some (Val.obj fields) ∧
          lookupFirst fields "dimensions" = some (Val.obj dfields) ∧
          lookupFirst dfields "width" = some (Val.sc (Sc.num (3 / 2))) ∧
          (∀ k, k ≠ "width" → lookupFirst dfields k
            = lookupFirst [("width", Val.sc (Sc.num (1 / 2))),
                ("height", Val.sc (Sc.num 1)),
                ("depth", Val.sc (Sc.num (1 / 5))),
                ("radius", Val.sc (Sc.num (1 / 20))),
                ("segments", Val.sc (Sc.num 8))] k) ∧
          (∀ k, k ∈ ([("width", Val.sc (Sc.num (1 / 2))),
              ("height", Val.sc (Sc.num 1)),
              ("depth", Val.sc (Sc.num (1 / 5))),
              ("radius", Val.sc (Sc.num (1 / 20))),
              ("segments", Val.sc (Sc.num 8))] : List (String × Val)).map
                Prod.fst →
            k ∈ dfields.map Prod.fst)) :=
  ⟨rfl,
   C1_dimensions_deep_merge emptyHeap DEFAULT_SCENE
     [("primitive", Val.sc (Sc.str "rounded_box")), ("features", Val.arr 0),
      ("dimensions", Val.obj [("width", Val.sc (Sc.num (1 / 2))),
        ("height", Val.sc (Sc.num 1)), ("depth", Val.sc (Sc.num (1 / 5))),
        ("radius", Val.sc (Sc.num (1 / 20))),
        ("segments", Val.sc (Sc.num 8))])]
     [("width", Val.sc (Sc.num (1 / 2))), ("height", Val.sc (Sc.num 1)),
      ("depth", Val.sc (Sc.num (1 / 5))),
      ("radius", Val.sc (Sc.num (1 / 20))),
      ("segments", Val.sc (Sc.num 8))] rfl rfl (by decide) (by decide)⟩

/-- C3: merge identity — for every heap and every well-formed scene
document (top-level keys unrepeated; the seven explicitly merged sections
present as objects with unrepeated field keys; `shape_hint` carrying an
object-valued `dimensions` with unrepeated keys), merging with the empty
patch `{}` returns a document equal to the base. -/
theorem C3_merge_empty_patch_identity (h : Heap) (base : Obj)
    (sh d : List (String × Val))
    (hnd : (base.map Prod.fst).Nodup)
    (hsec : ∀ k ∈ mergedSectionKeys, ∃ f,
      lookupFirst base k = some (Val.obj f) ∧ (f.map Prod.fst).Nodup)
    (hsh : lookupFirst base "shape_hint" = some (Val.obj sh))
    (hd : lookupFirst sh "dimensions" = some (Val.obj d))
    (hdnd : (d.map Prod.fst).Nodup) :
    mergeScene h base [] = base := by
  obtain ⟨fo, hfo, hfond⟩ := hsec "object" (by simp [mergedSectionKeys])
  obtain ⟨fp, hfp, hfpnd⟩ := hsec "presentation" (by simp [mergedSectionKeys])
  obtain ⟨fs, hfs, hfsnd⟩ := hsec "shape_hint" (by simp [mergedSectionKeys])
  obtain ⟨fm, hfm, hfmnd⟩ := hsec "material" (by simp [mergedSectionKeys])
  obtain ⟨fc, hfc, hfcnd⟩ := hsec "camera" (by simp [mergedSectionKeys])
  obtain ⟨fl, hfl, hflnd⟩ := hsec "lighting" (by simp [mergedSectionKeys])
  obtain ⟨ff, hff, hffnd⟩ := hsec "fx" (by simp [mergedSectionKeys])
  have hfs2 : fs = sh := Val.obj.inj (Option.some.inj (hfs.symm.trans hsh))
  subst hfs2
  rw [mergeScene,
    sectionLit_empty_patch h base "object" fo hfo hfond,
    sectionLit_empty_patch h base "presentation" fp hfp hfpnd,
    shapeHintLit_empty_patch h base fs d hfs hfsnd hd hdnd,
    sectionLit_empty_patch h base "material" fm hfm hfmnd,
    sectionLit_empty_patch h base "camera" fc hfc hfcnd,
    sectionLit_empty_patch h base "lighting" fl hfl hflnd,
    sectionLit_empty_patch h base "fx" ff hff hffnd,
    objExtend_nil_eq base hnd, objExtend_nil_right]
  simp only [objExtend, List.foldl_cons, List.foldl_nil]
  rw [objInsert_self_of_lookupFirst base "object" (Val.obj fo) hnd hfo,
    objInsert_self_of_lookupFirst base "presentation" (Val.obj fp) hnd hfp,
    objInsert_self_of_lookupFirst base "shape_hint" (Val.obj fs) hnd hfs,
    objInsert_self_of_lookupFirst base "material" (Val.obj fm) hnd hfm,
    objInsert_self_of_lookupFirst base "camera" (Val.obj fc) hnd hfc,
    objInsert_self_of_lookupFirst base "lighting" (Val.obj fl) hnd hfl,
    objInsert_self_of_lookupFirst base "fx" (Val.obj ff) hnd hff]

/-- Witness for C3 at `DEFAULT_SCENE`. -/
theorem C3_merge_empty_patch_identity_witness :
    (DEFAULT_SCENE.map Prod.fst).Nodup ∧
      (∀ k ∈ mergedSectionKeys, ∃ f,
        lookupFirst DEFAULT_SCENE k = some (Val.obj f) ∧
          (f.map Prod.fst).Nodup) ∧
      mergeScene emptyHeap DEFAULT_SCENE [] = DEFAULT_SCENE :=
  ⟨by decide,
   by
     intro k hk
     fin_cases hk <;> exact ⟨_, rfl, by decide⟩,
   C3_merge_empty_patch_identity emptyHeap DEFAULT_SCENE
     [("primitive", Val.sc (Sc.str "rounded_box")), ("features", Val.arr 0),
      ("dimensions", Val.obj [("width", Val.sc (Sc.num (1 / 2))),
        ("height", Val.sc (Sc.num 1)), ("depth", Val.sc (Sc.num (1 / 5))),
        ("radius", Val.sc (Sc.num (1 / 20))),
        ("segments", Val.sc (Sc.num 8))])]
     [("width", Val.sc (Sc.num (1 / 2))), ("height", Val.sc (Sc.num 1)),
      ("depth", Val.sc (Sc.num (1 / 5))),
      ("radius", Val.sc (Sc.num (1 / 20))),
      ("segments", Val.sc (Sc.num 8))] (by decide)
     (by
       intro k hk
       fin_cases hk <;> exact ⟨_, rfl, by decide⟩)
     rfl rfl (by decide)⟩

end VoiceMesh
